import Mathlib

/-!
Verification of the TaskPal real-time pub/sub core against its specification.

The development shallowly embeds the Python sources:
  * `app/services/pubsub_service.py` — `PubSubService` (Redis-backed broker glue),
  * `app/websocket.py` — WebSocket session handling and channel access policy,
  * `backend/app/routes/pubsub.py` — HTTP publish/subscribe routes.

Strings from the Python code are modelled as `List Char`; Python dicts as
association lists without duplicate keys; Python callables (subscriber
callbacks) as abstract identifiers (`Nat`); database queries
(`WorkspaceMember.query.filter_by(workspace_id=…, user_id=…, is_active=True)`)
as an externally supplied boolean lookup function.
-/

namespace TaskPal

/-! ## Association-list helpers (model of Python `dict`) -/

/-- Lookup in an association list (Python `d.get(k)` / `k in d`). -/
def getA {κ α : Type} [DecidableEq κ] : List (κ × α) → κ → Option α
  | [], _ => none
  | (k', v') :: t, k => if k' = k then some v' else getA t k

/-- Update/insert in an association list (Python `d[k] = v`). -/
def setA {κ α : Type} [DecidableEq κ] : List (κ × α) → κ → α → List (κ × α)
  | [], k, v => [(k, v)]
  | (k', v') :: t, k, v => if k' = k then (k, v) :: t else (k', v') :: setA t k v

/-- Python `set.add`: insert only if absent. -/
def addToSet {α : Type} [DecidableEq α] (x : α) (l : List α) : List α :=
  if x ∈ l then l else l ++ [x]

theorem getA_setA_same {κ α : Type} [DecidableEq κ] (m : List (κ × α)) (k : κ) (v : α) :
    getA (setA m k v) k = some v := by
  induction m with
  | nil => simp [getA, setA]
  | cons hd t ih =>
    obtain ⟨k', v'⟩ := hd
    by_cases h : k' = k <;> simp [getA, setA, h, ih]

theorem setA_getA_self {κ α : Type} [DecidableEq κ] (m : List (κ × α)) (k : κ) (v : α)
    (h : getA m k = some v) : setA m k v = m := by
  induction m with
  | nil => simp [getA] at h
  | cons hd t ih =>
    obtain ⟨k', v'⟩ := hd
    by_cases hk : k' = k
    · subst hk
      simp [getA] at h
      simp [setA, h]
    · simp [getA, hk] at h
      simp [setA, hk, ih h]

theorem mem_addToSet_self {α : Type} [DecidableEq α] (x : α) (l : List α) :
    x ∈ addToSet x l := by
  by_cases h : x ∈ l <;> simp [addToSet, h]

theorem addToSet_of_mem {α : Type} [DecidableEq α] {x : α} {l : List α}
    (h : x ∈ l) : addToSet x l = l := by
  simp [addToSet, h]

/-! ## `PubSubService` (app/services/pubsub_service.py)

`self.subscribers : Dict[str, List[Callable]]` maps channel names to lists of
callback objects; `pubsub_client.subscribe(channel)` registers the channel with
Redis the first time it appears.  Callbacks are opaque Python function objects,
modelled by `Nat` identifiers. -/

abbrev Channel := List Char

abbrev Callback := Nat

structure PubSubState where
  subscribers : List (Channel × List Callback)
  redisChannels : List Channel
  deriving DecidableEq, Repr

/-- Initial state of a fresh `PubSubService` (empty subscriber dict). -/
def initPubSub : PubSubState := ⟨[], []⟩

/-- `PubSubService.subscribe(channel, callback)`:
```
if channel not in self.subscribers:
    self.subscribers[channel] = []
    self.pubsub_client.subscribe(channel)
self.subscribers[channel].append(callback)
```
Note the unconditional `append`: a repeated subscribe with the same callback
adds a second copy. -/
def pubsub_subscribe (st : PubSubState) (c : Channel) (cb : Callback) : PubSubState :=
  match getA st.subscribers c with
  | none =>
      { subscribers := setA st.subscribers c [cb],
        redisChannels := st.redisChannels ++ [c] }
  | some l =>
      { st with subscribers := setA st.subscribers c (l ++ [cb]) }

/-- `PubSubService.publish(channel, message)`: serializes the message
(`json.dumps` on a dict of strings cannot fail), calls
`redis_client.publish` which returns the number of Redis subscribers on the
channel, and returns `result > 0`.  The Redis-side subscriber count is the
external parameter `redisCount`. -/
def pubsub_publish (redisCount : Channel → Nat) (c : Channel) : Bool :=
  decide (0 < redisCount c)

/-- The delivery loop body of `PubSubService._listen_loop` over one channel's
callback list:
```
for callback in self.subscribers[channel]:
    try:
        callback(channel, parsed_data)
    except Exception as e:
        current_app.logger.error(...)
```
`fails cb = true` models `callback(...)` raising; the `except` swallows the
exception and the loop continues, so every callback is attempted.  The result
records each attempted callback together with whether its invocation
succeeded. -/
def attemptAll (fails : Callback → Bool) : List Callback → List (Callback × Bool)
  | [] => []
  | cb :: rest => (cb, ! fails cb) :: attemptAll fails rest

/-- One iteration of `PubSubService._listen_loop` handling a Redis message on
channel `c`: looks up `self.subscribers[channel]` (skipping delivery when the
channel is absent) and runs the delivery loop.  The loop never mutates
`self.subscribers`, so the returned state is the input state. -/
def listen_deliver (st : PubSubState) (fails : Callback → Bool) (c : Channel) :
    PubSubState × List (Callback × Bool) :=
  match getA st.subscribers c with
  | none => (st, [])
  | some cbs => (st, attemptAll fails cbs)

/-- `n` repeated `subscribe(c, cb)` calls starting from `st`. -/
def joinN : Nat → PubSubState → Channel → Callback → PubSubState
  | 0, st, _, _ => st
  | n + 1, st, c, cb => pubsub_subscribe (joinN n st c cb) c cb

theorem attemptAll_map_fst (fails : Callback → Bool) (cbs : List Callback) :
    (attemptAll fails cbs).map Prod.fst = cbs := by
  induction cbs with
  | nil => rfl
  | cons cb rest ih => simp [attemptAll, ih]

theorem joinN_subscribers (c : Channel) (cb : Callback) :
    ∀ n : Nat, 1 ≤ n →
      getA (joinN n initPubSub c cb).subscribers c = some (List.replicate n cb) := by
  intro n
  induction n with
  | zero => intro h; omega
  | succ n ih =>
    intro _
    by_cases hn : 1 ≤ n
    · have h := ih hn
      simp only [joinN, pubsub_subscribe, h]
      rw [getA_setA_same]
      congr 1
      rw [List.replicate_succ' n cb]
    · have hn0 : n = 0 := by omega
      subst hn0
      simp [joinN, pubsub_subscribe, initPubSub, getA, setA, List.replicate]

/-! ## Python string helpers

Channels are namespaced strings.  `pyStartswith s pre` is Python
`s.startswith(pre)`; `pySplit` is Python `s.split(':')` (always returns at
least one part; a trailing separator yields a final empty part). -/

def pyStartswith (s pre : List Char) : Bool := pre.isPrefixOf s

def pySplit : List Char → List (List Char)
  | [] => [[]]
  | ch :: rest =>
    match pySplit rest with
    | [] => [[]]
    | h :: t => if ch = ':' then [] :: h :: t else (ch :: h) :: t

theorem pySplit_ne_nil (l : List Char) : pySplit l ≠ [] := by
  cases l with
  | nil => simp [pySplit]
  | cons ch rest =>
    simp only [pySplit]
    cases pySplit rest with
    | nil => simp
    | cons h t =>
      by_cases hc : ch = ':' <;> simp [hc]

theorem pySplit_cons (ch : Char) (l : List Char) :
    pySplit (ch :: l) =
      if ch = ':' then [] :: pySplit l
      else (ch :: (pySplit l).headD []) :: (pySplit l).tail := by
  have h := pySplit_ne_nil l
  simp only [pySplit]
  cases hl : pySplit l with
  | nil => exact absurd hl h
  | cons h t => by_cases hc : ch = ':' <;> simp [hc]

/-- Splitting after a colon-free segment: `pySplit (pre ++ ':' :: rest)` is the
segment followed by the split of the remainder. -/
theorem pySplit_append_colon {pre : List Char} (hpre : ':' ∉ pre) (rest : List Char) :
    pySplit (pre ++ ':' :: rest) = pre :: pySplit rest := by
  induction pre with
  | nil =>
    rw [List.nil_append, pySplit_cons]
    simp
  | cons ch pre ih =>
    have hch : ch ≠ ':' := fun h => hpre (h ▸ List.mem_cons_self ch pre)
    have hpre' : ':' ∉ pre := fun h => hpre (List.mem_cons_of_mem ch h)
    rw [List.cons_append, pySplit_cons, ih hpre']
    simp [hch]

/-- Head of a split when the leading segment is colon-free and the remainder is
empty or starts with a colon. -/
theorem pySplit_headD {seg rest : List Char} (hseg : ':' ∉ seg)
    (hrest : rest = [] ∨ ∃ r, rest = ':' :: r) :
    (pySplit (seg ++ rest)).headD [] = seg := by
  induction seg with
  | nil =>
    rcases hrest with h | ⟨r, h⟩ <;> subst h
    · simp [pySplit]
    · rw [List.nil_append, pySplit_cons]
      simp
  | cons ch seg ih =>
    have hch : ch ≠ ':' := fun h => hseg (h ▸ List.mem_cons_self ch seg)
    have hseg' : ':' ∉ seg := fun h => hseg (List.mem_cons_of_mem ch h)
    rw [List.cons_append, pySplit_cons, if_neg hch]
    simp only [List.headD_cons]
    rw [ih hseg']

/-- Stripping a common leading segment from a prefix test. -/
theorem isPrefixOf_append_same (a x y : List Char) :
    (a ++ x).isPrefixOf (a ++ y) = x.isPrefixOf y := by
  induction a with
  | nil => rfl
  | cons ch a ih => simp [List.isPrefixOf, ih]

/-- For colon-free `u` and `U`, `(u ++ [':']).isPrefixOf (U ++ ':' :: s)` holds
exactly when `u = U`. -/
theorem isPrefixOf_colon_segment {u U : List Char} (hu : ':' ∉ u) (hU : ':' ∉ U)
    (s : List Char) : (u ++ [':']).isPrefixOf (U ++ ':' :: s) = true ↔ u = U := by
  induction u generalizing U with
  | nil =>
    cases U with
    | nil => simp [List.isPrefixOf]
    | cons b U' =>
      have hb : b ≠ ':' := fun h => hU (h ▸ List.mem_cons_self b U')
      have hb' : (':' : Char) ≠ b := fun h => hb h.symm
      simp [List.isPrefixOf, hb']
  | cons a u' ih =>
    have ha : a ≠ ':' := fun h => hu (h ▸ List.mem_cons_self a u')
    have hu' : ':' ∉ u' := fun h => hu (List.mem_cons_of_mem a h)
    cases U with
    | nil => simp [List.isPrefixOf, ha]
    | cons b U' =>
      have hU' : ':' ∉ U' := fun h => hU (List.mem_cons_of_mem b h)
      by_cases hab : a = b
      · subst hab
        simp [List.isPrefixOf, ih hu' hU']
      · simp [List.isPrefixOf, hab]

/-! ## WebSocket layer (app/websocket.py)

`active_connections` maps socket ids to `{'user_id': ..., 'channels': set()}`;
flask-socketio rooms map channel names to sets of socket ids (`join_room` is
idempotent).  The `WorkspaceMember.query.filter_by(workspace_id=…, user_id=…,
is_active=True).first() is not None` check is the external lookup
`member : workspace_id → user_id → Bool`, evaluated afresh on each call. -/

abbrev UserId := List Char

/-- Literal `'workspace:'` used by the channel checks. -/
def wsPrefix : List Char := ['w', 'o', 'r', 'k', 's', 'p', 'a', 'c', 'e', ':']

/-- `'workspace'` — `wsPrefix` without its trailing colon. -/
def wsWord : List Char := ['w', 'o', 'r', 'k', 's', 'p', 'a', 'c', 'e']

/-- Literal `'user:'` used by the channel checks. -/
def userStr : List Char := ['u', 's', 'e', 'r', ':']

/-- `verify_channel_access(user_id, channel)`:
```
if channel.startswith(f'user:{user_id}:'):
    return True
if channel.startswith('workspace:'):
    workspace_id = channel.split(':')[1]
    membership = WorkspaceMember.query.filter_by(
        workspace_id=workspace_id, user_id=user_id, is_active=True).first()
    return membership is not None
return False
```
Under the `startswith('workspace:')` guard `split(':')` always has a second
element, so the `[1]` index (modelled with a default) never falls outside the
list on a reachable path. -/
def verify_channel_access (member : List Char → UserId → Bool)
    (user_id : UserId) (channel : Channel) : Bool :=
  if pyStartswith channel (userStr ++ user_id ++ [':']) then true
  else if pyStartswith channel wsPrefix then
    member ((pySplit channel).tail.headD []) user_id
  else false

structure ConnInfo where
  user_id : UserId
  channels : List Channel
  deriving DecidableEq, Repr

structure WsState where
  conns : List (Nat × ConnInfo)
  rooms : List (Channel × List Nat)
  deriving DecidableEq, Repr

/-- Events emitted back to the WebSocket client by `handle_subscribe`:
`emit('error', 'Not authenticated')`, `emit('error', 'Channel is required')`,
`emit('error', 'Access denied to channel')`, `emit('subscribed', channel)`. -/
inductive WsEvent where
  | errNotAuthenticated
  | errChannelRequired
  | errAccessDenied
  | subscribed (c : Channel)
  deriving DecidableEq, Repr

/-- `join_room(channel)` for socket id `sid`: the room's member set gains
`sid` (flask-socketio rooms are set-like; re-joining is a no-op). -/
def roomJoin (rooms : List (Channel × List Nat)) (c : Channel) (sid : Nat) :
    List (Channel × List Nat) :=
  setA rooms c (addToSet sid ((getA rooms c).getD []))

/-- `handle_subscribe(data)` on socket `sid`:
```
if request.sid not in active_connections: emit('error', 'Not authenticated'); return
channel = data.get('channel')
if not channel: emit('error', 'Channel is required'); return
user_id = active_connections[request.sid]['user_id']
if not verify_channel_access(user_id, channel): emit('error', 'Access denied to channel'); return
join_room(channel)
active_connections[request.sid]['channels'].add(channel)
emit('subscribed', ...)
```
`data = none` models a missing `'channel'` key, and a present empty string is
also falsy in Python, hence the extra emptiness test. -/
def handle_subscribe (member : List Char → UserId → Bool) (st : WsState)
    (sid : Nat) (data : Option Channel) : WsState × WsEvent :=
  match getA st.conns sid with
  | none => (st, .errNotAuthenticated)
  | some info =>
    match data with
    | none => (st, .errChannelRequired)
    | some c =>
      if c = [] then (st, .errChannelRequired)
      else if verify_channel_access member info.user_id c then
        ({ conns := setA st.conns sid { info with channels := addToSet c info.channels },
           rooms := roomJoin st.rooms c sid },
         .subscribed c)
      else (st, .errAccessDenied)

/-! ### Access-policy lemmas -/

/-- A workspace channel never matches the `f'user:{user_id}:'` test. -/
theorem not_user_match_of_ws (user_id x : List Char) :
    pyStartswith (wsPrefix ++ x) (userStr ++ user_id ++ [':']) = false := by
  simp [pyStartswith, wsPrefix, userStr, List.isPrefixOf]

/-- On `workspace:<W>` or `workspace:<W>:<...>` with a colon-free `W`, the
access check is exactly the membership lookup on `(W, user_id)`. -/
theorem verify_channel_access_ws (member : List Char → UserId → Bool)
    (user_id W rest : List Char) (hW : ':' ∉ W)
    (hrest : rest = [] ∨ ∃ r, rest = ':' :: r) :
    verify_channel_access member user_id (wsPrefix ++ W ++ rest) = member W user_id := by
  have hws : wsPrefix = wsWord ++ [':'] := by rfl
  have hwsW : ':' ∉ wsWord := by decide
  have hsplit : pySplit (wsPrefix ++ W ++ rest) = wsWord :: pySplit (W ++ rest) := by
    rw [List.append_assoc, hws, List.append_assoc]
    exact pySplit_append_colon hwsW (W ++ rest)
  have hself : pyStartswith (wsPrefix ++ W ++ rest) wsPrefix = true := by
    rw [List.append_assoc]
    simp [pyStartswith]
  rw [verify_channel_access, List.append_assoc, not_user_match_of_ws]
  rw [← List.append_assoc, if_neg (by simp)]
  rw [if_pos (by simpa using hself)]
  rw [hsplit]
  simp only [List.tail_cons, pySplit_headD hW hrest]

/-- On `user:<U>:<suffix>` with colon-free identities, the access check holds
exactly when the requesting identity equals `U`, for every membership
lookup. -/
theorem verify_channel_access_user (member : List Char → UserId → Bool)
    (user_id U suffix : List Char) (hu : ':' ∉ user_id) (hU : ':' ∉ U) :
    verify_channel_access member user_id (userStr ++ U ++ ':' :: suffix) =
      decide (user_id = U) := by
  have hnum : pyStartswith (userStr ++ U ++ ':' :: suffix)
      (userStr ++ user_id ++ [':']) = ((user_id ++ [':']).isPrefixOf (U ++ ':' :: suffix)) := by
    rw [pyStartswith, List.append_assoc, List.append_assoc, isPrefixOf_append_same]
  by_cases heq : user_id = U
  · subst heq
    have : (user_id ++ [':']).isPrefixOf (user_id ++ ':' :: suffix) = true :=
      (isPrefixOf_colon_segment hu hu suffix).mpr rfl
    rw [verify_channel_access, if_pos (by rw [hnum, this])]
    simp
  · have hfalse : (user_id ++ [':']).isPrefixOf (U ++ ':' :: suffix) = false := by
      rcases Bool.eq_false_or_eq_true ((user_id ++ [':']).isPrefixOf (U ++ ':' :: suffix)) with h | h
      · exact absurd ((isPrefixOf_colon_segment hu hU suffix).mp h) heq
      · exact h
    have hnws : pyStartswith (userStr ++ U ++ ':' :: suffix) wsPrefix = false := by
      simp [pyStartswith, wsPrefix, userStr, List.isPrefixOf]
    rw [verify_channel_access, if_neg (by rw [hnum, hfalse]; simp), if_neg (by rw [hnws]; simp)]
    simp [heq]

/-- Reduction of `handle_subscribe` on the ALLOW path. -/
theorem handle_subscribe_allowed (member : List Char → UserId → Bool)
    (st : WsState) (sid : Nat) (info : ConnInfo) (c : Channel)
    (hconn : getA st.conns sid = some info) (hne : c ≠ [])
    (hv : verify_channel_access member info.user_id c = true) :
    handle_subscribe member st sid (some c) =
      ({ conns := setA st.conns sid { info with channels := addToSet c info.channels },
         rooms := roomJoin st.rooms c sid }, WsEvent.subscribed c) := by
  simp [handle_subscribe, hconn, hne, hv]

/-- `join_room` is idempotent for a fixed channel and socket id. -/
theorem roomJoin_idem (rooms : List (Channel × List Nat)) (c : Channel) (sid : Nat) :
    roomJoin (roomJoin rooms c sid) c sid = roomJoin rooms c sid := by
  unfold roomJoin
  rw [getA_setA_same, Option.getD_some,
    addToSet_of_mem (mem_addToSet_self sid ((getA rooms c).getD []))]
  exact setA_getA_self _ c _ (getA_setA_same rooms c _)

/-! ## HTTP routes (backend/app/routes/pubsub.py)

`BackendWorld` bundles the externally observable state the routes touch: the
workspace-membership table (`member`), the module-level `user_subscriptions`
dict, the process `PubSubService` state, Redis subscriber counts per channel,
and a counter minting fresh callback closures (each request to
`subscribe_to_channel` defines a new `channel_callback` function object).
The request payload is an abstract `Option α`: `none` models a missing or
falsy `request.get_json()` body (the routes only test the body's truthiness
before splicing it into the outgoing message). -/

structure BackendWorld where
  member : List Char → UserId → Bool
  userSubscriptions : List (Channel × List UserId)
  pubsub : PubSubState
  redisCount : Channel → Nat
  nextCb : Nat

/-- HTTP outcome of a route: `success_response(...)` or
`error_response(..., status)`. -/
inductive HttpResp where
  | success
  | errorResp (status : Nat)
  deriving DecidableEq, Repr

/-- `POST /publish/<channel>` (`publish_message`): rejects a falsy body with
400, otherwise builds `message_data` (payload plus `sender_id`/`timestamp`,
which does not affect the outcome), publishes via
`pubsub_service.publish(channel, message_data)`, and maps the returned boolean
to a success response or `error_response('Failed to publish message', 500)`.
No membership check is performed on this route. -/
def publish_message {α : Type} (w : BackendWorld) (_u : UserId) (c : Channel)
    (data : Option α) : BackendWorld × HttpResp :=
  match data with
  | none => (w, .errorResp 400)
  | some _ =>
    if pubsub_publish w.redisCount c then (w, .success) else (w, .errorResp 500)

/-- `POST /workspace/<workspace_id>/publish` (`publish_workspace_message`):
rejects a falsy body with 400, requires an active `WorkspaceMember` row for
`(workspace_id, current_user_id)` and answers 403 without publishing when it is
absent, otherwise publishes to `f'workspace:{workspace_id}'` as
`publish_message` does. -/
def publish_workspace_message {α : Type} (w : BackendWorld) (u : UserId)
    (wid : List Char) (data : Option α) : BackendWorld × HttpResp :=
  match data with
  | none => (w, .errorResp 400)
  | some _ =>
    if w.member wid u then
      if pubsub_publish w.redisCount (wsPrefix ++ wid) then (w, .success)
      else (w, .errorResp 500)
    else (w, .errorResp 403)

/-- `POST /subscribe/<channel>` (`subscribe_to_channel`):
```
if channel not in user_subscriptions: user_subscriptions[channel] = []
if current_user_id not in user_subscriptions[channel]:
    user_subscriptions[channel].append(current_user_id)
def channel_callback(channel_name, message): ...   # fresh closure
pubsub_service.subscribe(channel, channel_callback)
return success_response(...)
```
The route consults no membership or policy data and has no denial branch. -/
def subscribe_to_channel (w : BackendWorld) (u : UserId) (c : Channel) :
    BackendWorld × HttpResp :=
  let subs0 :=
    match getA w.userSubscriptions c with
    | none => setA w.userSubscriptions c []
    | some _ => w.userSubscriptions
  let cur := (getA subs0 c).getD []
  let subs1 := if u ∈ cur then subs0 else setA subs0 c (cur ++ [u])
  ({ w with
      userSubscriptions := subs1,
      pubsub := pubsub_subscribe w.pubsub c w.nextCb,
      nextCb := w.nextCb + 1 },
   .success)

/-! ## Redis-to-WebSocket bridge (app/websocket.py, setup) -/

/-- The method names defined on `PubSubService` in
`app/services/pubsub_service.py`. -/
def pubsubServiceMethodNames : List String :=
  ["__init__", "_init_redis", "publish", "subscribe", "unsubscribe",
   "_start_listener", "_listen_loop", "stop", "publish_workspace_update",
   "publish_user_notification", "publish_page_update", "publish_block_update",
   "publish_comment_update"]

/-- Outcome of `setup_redis_to_websocket_bridge`: either the handler for each
channel pattern was installed and `'Redis to WebSocket bridge started'` was
logged, or an exception escaped to the enclosing `try`/`except`, which logs
`'Failed to setup Redis to WebSocket bridge'` and installs nothing. -/
inductive BridgeResult where
  | started (patterns : List String)
  | failedLogged
  deriving DecidableEq, Repr

/-- `setup_redis_to_websocket_bridge()`: defines `redis_message_handler` and
calls `pubsub_service.subscribe_pattern(p, redis_message_handler)` for the four
patterns.  Attribute lookup of `subscribe_pattern` on the `PubSubService`
instance raises `AttributeError` when the class defines no such method; the
surrounding `try`/`except` catches it, so the function returns after logging
with no handler installed. -/
def setup_redis_to_websocket_bridge : BridgeResult :=
  if "subscribe_pattern" ∈ pubsubServiceMethodNames then
    .started ["workspace:*", "user:*", "page:*", "block:*"]
  else .failedLogged

/-! ## Claim theorems -/

/-- Concrete world with no Redis subscribers on any channel. -/
def zeroSubWorld : BackendWorld :=
  { member := fun _ _ => true, userSubscriptions := [], pubsub := initPubSub,
    redisCount := fun _ => 0, nextCb := 0 }

/-- Concrete world with no workspace memberships and one Redis subscriber on
every channel. -/
def noMemberWorld : BackendWorld :=
  { member := fun _ _ => false, userSubscriptions := [], pubsub := initPubSub,
    redisCount := fun _ => 1, nextCb := 0 }

/-- C1, counterexample: publishing to a channel whose Redis subscriber count is
zero is reported to the publisher as `error_response('Failed to publish
message', 500)`, not as a success with `delivered_count = 0` — the claim fails
at this input. -/
theorem C1_counterexample :
    (publish_message zeroSubWorld ['u'] ['c'] (some ())).2 = HttpResp.errorResp 500
    ∧ zeroSubWorld.redisCount ['c'] = 0 :=
  ⟨rfl, rfl⟩

/-- C1, amended: when the target channel has zero subscribers,
`PubSubService.publish` returns `False` (it returns whether Redis reported a
positive subscriber count), and the `/publish/<channel>` route therefore
answers the publisher with a 500 error; no `delivered_count` is reported. -/
theorem C1_empty_channel_publish {α : Type} (w : BackendWorld) (u : UserId)
    (c : Channel) (pl : α) (h : w.redisCount c = 0) :
    pubsub_publish w.redisCount c = false
    ∧ publish_message w u c (some pl) = (w, HttpResp.errorResp 500) := by
  have hp : pubsub_publish w.redisCount c = false := by
    simp [pubsub_publish, h]
  exact ⟨hp, by simp [publish_message, hp]⟩

/-- C1, witness. -/
theorem C1_empty_channel_publish_witness :
    pubsub_publish zeroSubWorld.redisCount ['c'] = false
    ∧ publish_message zeroSubWorld ['u'] ['c'] (some ()) =
        (zeroSubWorld, HttpResp.errorResp 500) :=
  C1_empty_channel_publish zeroSubWorld ['u'] ['c'] () rfl

/-- C3, counterexample: a user with no workspace membership publishes to
`workspace:1` through the generic `/publish/<channel>` route and receives a
success response (with one Redis subscriber present), so the route does not
impose the subscriber's membership check. -/
theorem C3_counterexample :
    (publish_message noMemberWorld ['u'] (wsPrefix ++ ['1']) (some ())).2 = HttpResp.success
    ∧ noMemberWorld.member ['1'] ['u'] = false :=
  ⟨rfl, rfl⟩

/-- C3, amended: only `/workspace/<id>/publish` enforces the membership check
(non-members get 403 and nothing is published); the generic `/publish/<channel>`
route consults no membership fact — its response is identical under any two
membership states. -/
theorem C3_workspace_publish_policy :
    (∀ (α : Type) (w : BackendWorld) (u : UserId) (wid : List Char) (pl : α),
        w.member wid u = false →
          publish_workspace_message w u wid (some pl) = (w, HttpResp.errorResp 403))
    ∧ (∀ (α : Type) (w : BackendWorld) (m2 : List Char → UserId → Bool)
          (u : UserId) (c : Channel) (d : Option α),
        (publish_message { w with member := m2 } u c d).2 = (publish_message w u c d).2) := by
  constructor
  · intro α w u wid pl h
    simp [publish_workspace_message, h]
  · intro α w m2 u c d
    cases d with
    | none => rfl
    | some pl =>
      simp only [publish_message]
      by_cases hp : pubsub_publish w.redisCount c = true <;> simp [hp]

/-- C3, witness. -/
theorem C3_workspace_publish_policy_witness :
    publish_workspace_message noMemberWorld ['u'] ['1'] (some ()) =
      (noMemberWorld, HttpResp.errorResp 403)
    ∧ (publish_message { noMemberWorld with member := fun _ _ => true } ['u'] ['c']
        (some ())).2 = (publish_message noMemberWorld ['u'] ['c'] (some ())).2 :=
  ⟨C3_workspace_publish_policy.1 Unit noMemberWorld ['u'] ['1'] () rfl,
   C3_workspace_publish_policy.2 Unit noMemberWorld (fun _ _ => true) ['u'] ['c'] (some ())⟩

/-- C4: the HTTP `subscribe_to_channel` route records the caller as a
subscriber and answers success without consulting any membership fact: runs
that differ only in the membership state produce the same response and the
same state apart from that untouched membership component, and no denial
branch exists. -/
theorem C4_subscribe_route_no_policy (w : BackendWorld)
    (m2 : List Char → UserId → Bool) (u : UserId) (c : Channel) :
    (subscribe_to_channel { w with member := m2 } u c).2 = (subscribe_to_channel w u c).2
    ∧ (subscribe_to_channel { w with member := m2 } u c).1 =
        { (subscribe_to_channel w u c).1 with member := m2 }
    ∧ (subscribe_to_channel w u c).2 = HttpResp.success
    ∧ u ∈ (getA (subscribe_to_channel w u c).1.userSubscriptions c).getD [] := by
  refine ⟨rfl, rfl, rfl, ?_⟩
  unfold subscribe_to_channel
  cases hg : getA w.userSubscriptions c with
  | none =>
    have h1 : getA (setA w.userSubscriptions c ([] : List UserId)) c = some [] :=
      getA_setA_same w.userSubscriptions c []
    simp [hg, h1, getA_setA_same]
  | some l =>
    by_cases hu : u ∈ l
    · simp [hg, hu]
    · simp [hg, hu, getA_setA_same]

/-- C5: `setup_redis_to_websocket_bridge` never installs the
Redis-to-WebSocket handlers: `PubSubService` defines no `subscribe_pattern`
method, so the very first `pubsub_service.subscribe_pattern('workspace:*', …)`
call raises `AttributeError`, which the enclosing handler only logs. -/
theorem C5_bridge_not_installed :
    setup_redis_to_websocket_bridge = BridgeResult.failedLogged := by
  decide

/-- C6, counterexample: two `subscribe('a', cb)` calls with the same callback
leave a different registry state than one call (the callback list holds two
copies), and a single delivered message invokes the callback twice, not
once. -/
theorem C6_counterexample :
    joinN 2 initPubSub ['a'] 7 ≠ joinN 1 initPubSub ['a'] 7
    ∧ (listen_deliver (joinN 2 initPubSub ['a'] 7) (fun _ => false) ['a']).2 =
        [(7, true), (7, true)] := by
  exact ⟨by decide, rfl⟩

/-- C6, amended: `PubSubService.subscribe` is not idempotent — after `n ≥ 1`
joins of the same channel/callback pair a single delivered message invokes the
callback exactly `n` times; the WebSocket session layer, by contrast, is
idempotent: repeating an allowed `handle_subscribe` leaves the session/room
state unchanged. -/
theorem C6_join_repetition :
    (∀ (n : Nat) (c : Channel) (cb : Callback) (fails : Callback → Bool), 1 ≤ n →
        (((listen_deliver (joinN n initPubSub c cb) fails c).2.map Prod.fst).count cb = n))
    ∧ (∀ (member : List Char → UserId → Bool) (st : WsState) (sid : Nat)
          (info : ConnInfo) (c : Channel),
        getA st.conns sid = some info → c ≠ [] →
        verify_channel_access member info.user_id c = true →
          (handle_subscribe member (handle_subscribe member st sid (some c)).1 sid
              (some c)).1 =
            (handle_subscribe member st sid (some c)).1) := by
  constructor
  · intro n c cb fails hn
    have h := joinN_subscribers c cb n hn
    simp [listen_deliver, h, attemptAll_map_fst]
  · intro member st sid info c hconn hne hv
    obtain ⟨uid, chs⟩ := info
    rw [handle_subscribe_allowed member st sid ⟨uid, chs⟩ c hconn hne hv]
    dsimp only
    have hconn1 : getA (setA st.conns sid ⟨uid, addToSet c chs⟩) sid =
        some ⟨uid, addToSet c chs⟩ :=
      getA_setA_same st.conns sid ⟨uid, addToSet c chs⟩
    rw [handle_subscribe_allowed member _ sid ⟨uid, addToSet c chs⟩ c hconn1 hne hv]
    dsimp only
    rw [addToSet_of_mem (mem_addToSet_self c chs)]
    rw [setA_getA_self _ sid _ hconn1, roomJoin_idem]

/-- C6, witness. -/
theorem C6_join_repetition_witness :
    (((listen_deliver (joinN 1 initPubSub ['a'] 7) (fun _ => false) ['a']).2.map
        Prod.fst).count 7 = 1)
    ∧ ((handle_subscribe (fun _ _ => true) (handle_subscribe (fun _ _ => true)
          ⟨[(0, ⟨['u'], []⟩)], []⟩ 0 (some (wsPrefix ++ ['1']))).1 0
          (some (wsPrefix ++ ['1']))).1 =
        (handle_subscribe (fun _ _ => true) ⟨[(0, ⟨['u'], []⟩)], []⟩ 0
          (some (wsPrefix ++ ['1']))).1) :=
  ⟨C6_join_repetition.1 1 ['a'] 7 (fun _ => false) (by decide),
   C6_join_repetition.2 (fun _ _ => true) ⟨[(0, ⟨['u'], []⟩)], []⟩ 0 ⟨['u'], []⟩
     (wsPrefix ++ ['1']) rfl (by decide) (by decide)⟩

/-- C8, counterexample: callback `7`'s delivery fails (`fails 7 = true`), the
failure does not surface (the loop records the attempt and returns normally),
but `7` is not removed from the channel's subscriber set — `_listen_loop`
never mutates `self.subscribers`, so the claimed implicit disconnect does not
happen. -/
theorem C8_counterexample :
    (listen_deliver ⟨[(['a'], [7])], [['a']]⟩ (fun _ => true) ['a']).2 = [(7, false)]
    ∧ (listen_deliver ⟨[(['a'], [7])], [['a']]⟩ (fun _ => true) ['a']).1 =
        ⟨[(['a'], [7])], [['a']]⟩
    ∧ getA (listen_deliver ⟨[(['a'], [7])], [['a']]⟩ (fun _ => true) ['a']).1.subscribers
        ['a'] = some [7] :=
  ⟨rfl, rfl, rfl⟩

/-- C8, amended: a per-sink delivery failure is caught and logged, never
surfaces to the publisher, and does not stop the remaining deliveries — but
the failing sink stays in the channel's subscriber set (the delivery loop
leaves the registry state untouched). -/
theorem C8_failure_no_removal (st : PubSubState) (fails : Callback → Bool)
    (c : Channel) :
    (listen_deliver st fails c).1 = st
    ∧ (listen_deliver st fails c).2.map Prod.fst = (getA st.subscribers c).getD [] := by
  cases h : getA st.subscribers c with
  | none => simp [listen_deliver, h]
  | some cbs => simp [listen_deliver, h, attemptAll_map_fst]

/-- C9: when a channel has subscribed callbacks, a delivery attempts every one
of them regardless of which invocations raise, and the delivery pass returns
normally with the registry state intact. -/
theorem C9_delivery_isolation (st : PubSubState) (fails : Callback → Bool)
    (c : Channel) (cbs : List Callback) (h : getA st.subscribers c = some cbs) :
    (listen_deliver st fails c).2.map Prod.fst = cbs
    ∧ (listen_deliver st fails c).1 = st := by
  simp [listen_deliver, h, attemptAll_map_fst]

/-- C9, witness: the middle of three callbacks fails, all three are
attempted. -/
theorem C9_delivery_isolation_witness :
    (listen_deliver ⟨[(['a'], [1, 2, 3])], [['a']]⟩ (fun cb => cb == 2) ['a']).2.map
        Prod.fst = [1, 2, 3]
    ∧ (listen_deliver ⟨[(['a'], [1, 2, 3])], [['a']]⟩ (fun cb => cb == 2) ['a']).1 =
        ⟨[(['a'], [1, 2, 3])], [['a']]⟩ :=
  C9_delivery_isolation ⟨[(['a'], [1, 2, 3])], [['a']]⟩ (fun cb => cb == 2) ['a']
    [1, 2, 3] rfl

/-- C2: a subscribe to `workspace:<W>` (or `workspace:<W>:<...>`) from an
authenticated session succeeds exactly when the membership lookup in force at
the time of the call reports an active membership of the session's user in
`W`; under a lookup that reports no membership (e.g. after a revocation) the
same request is denied and the state — including every session's joined
channels and the room registry — is left untouched, so earlier joins are not
evicted. -/
theorem C2_workspace_subscribe_gate
    (member member' : List Char → UserId → Bool) (st : WsState) (sid : Nat)
    (info : ConnInfo) (W rest : List Char)
    (hconn : getA st.conns sid = some info) (hW : ':' ∉ W)
    (hrest : rest = [] ∨ ∃ r, rest = ':' :: r) :
    (((handle_subscribe member st sid (some (wsPrefix ++ W ++ rest))).2 =
        WsEvent.subscribed (wsPrefix ++ W ++ rest)) ↔ member W info.user_id = true)
    ∧ (member' W info.user_id = false →
        handle_subscribe member' st sid (some (wsPrefix ++ W ++ rest)) =
          (st, WsEvent.errAccessDenied)) := by
  have hwsne : wsPrefix ≠ ([] : List Char) := by simp [wsPrefix]
  have hv1 : verify_channel_access member info.user_id (wsPrefix ++ (W ++ rest)) =
      member W info.user_id := by
    rw [← List.append_assoc]
    exact verify_channel_access_ws member info.user_id W rest hW hrest
  have hv2 : verify_channel_access member' info.user_id (wsPrefix ++ (W ++ rest)) =
      member' W info.user_id := by
    rw [← List.append_assoc]
    exact verify_channel_access_ws member' info.user_id W rest hW hrest
  constructor
  · cases hm : member W info.user_id
    · simp [handle_subscribe, hconn, hwsne, hv1, hm]
    · simp [handle_subscribe, hconn, hwsne, hv1, hm]
  · intro hm'
    simp [handle_subscribe, hconn, hwsne, hv2, hm']

/-- C2, witness. -/
theorem C2_workspace_subscribe_gate_witness :
    (((handle_subscribe (fun _ _ => true) ⟨[(0, ⟨['u'], []⟩)], []⟩ 0
          (some (wsPrefix ++ ['1'] ++ []))).2 =
        WsEvent.subscribed (wsPrefix ++ ['1'] ++ [])) ↔
      (fun (_ : List Char) (_ : UserId) => true) ['1'] (ConnInfo.mk ['u'] []).user_id = true)
    ∧ ((fun (_ : List Char) (_ : UserId) => false) ['1'] (ConnInfo.mk ['u'] []).user_id = false →
        handle_subscribe (fun _ _ => false) ⟨[(0, ⟨['u'], []⟩)], []⟩ 0
            (some (wsPrefix ++ ['1'] ++ [])) =
          (⟨[(0, ⟨['u'], []⟩)], []⟩, WsEvent.errAccessDenied)) :=
  C2_workspace_subscribe_gate (fun _ _ => true) (fun _ _ => false)
    ⟨[(0, ⟨['u'], []⟩)], []⟩ 0 ⟨['u'], []⟩ ['1'] [] rfl (by decide) (Or.inl rfl)

/-- C7: a subscribe to `user:<U>:<suffix>` from an authenticated session whose
identity is colon-free succeeds exactly when that identity equals `U`, for
every membership lookup — workspace membership facts play no role on user
channels. -/
theorem C7_user_channel_self_scope
    (member : List Char → UserId → Bool) (st : WsState) (sid : Nat)
    (info : ConnInfo) (U suffix : List Char)
    (hconn : getA st.conns sid = some info) (hu : ':' ∉ info.user_id)
    (hU : ':' ∉ U) :
    ((handle_subscribe member st sid (some (userStr ++ U ++ ':' :: suffix))).2 =
        WsEvent.subscribed (userStr ++ U ++ ':' :: suffix)) ↔ info.user_id = U := by
  have husne : userStr ≠ ([] : List Char) := by simp [userStr]
  have hv1 : verify_channel_access member info.user_id (userStr ++ (U ++ ':' :: suffix)) =
      decide (info.user_id = U) := by
    rw [← List.append_assoc]
    exact verify_channel_access_user member info.user_id U suffix hu hU
  by_cases heq : info.user_id = U
  · rw [heq] at hv1
    simp [handle_subscribe, hconn, husne, hv1, heq]
  · simp [handle_subscribe, hconn, husne, hv1, heq]

/-- C7, witness: identity `u` subscribing to `user:u:n` (allowed for every
membership lookup, here one that reports nothing). -/
theorem C7_user_channel_self_scope_witness :
    ((handle_subscribe (fun _ _ => false) ⟨[(0, ⟨['u'], []⟩)], []⟩ 0
        (some (userStr ++ ['u'] ++ ':' :: ['n']))).2 =
      WsEvent.subscribed (userStr ++ ['u'] ++ ':' :: ['n'])) ↔
      (ConnInfo.mk ['u'] []).user_id = ['u'] :=
  C7_user_channel_self_scope (fun _ _ => false) ⟨[(0, ⟨['u'], []⟩)], []⟩ 0
    ⟨['u'], []⟩ ['u'] ['n'] rfl (by decide) (by decide)

/-- C10: when the access check denies a channel, `handle_subscribe` emits the
`'Access denied to channel'` error and returns the state exactly as it was: no
session's joined-channel set, no room membership, and no connection entry
changes. -/
theorem C10_deny_no_state_change
    (member : List Char → UserId → Bool) (st : WsState) (sid : Nat)
    (info : ConnInfo) (c : Channel)
    (hconn : getA st.conns sid = some info) (hne : c ≠ [])
    (hv : verify_channel_access member info.user_id c = false) :
    handle_subscribe member st sid (some c) = (st, WsEvent.errAccessDenied) := by
  simp [handle_subscribe, hconn, hne, hv]

/-- C10, witness: channel `'x'` matches no allowed namespace and is denied with
no state change. -/
theorem C10_deny_no_state_change_witness :
    handle_subscribe (fun _ _ => false) ⟨[(0, ⟨['u'], []⟩)], []⟩ 0 (some ['x']) =
      (⟨[(0, ⟨['u'], []⟩)], []⟩, WsEvent.errAccessDenied) :=
  C10_deny_no_state_change (fun _ _ => false) ⟨[(0, ⟨['u'], []⟩)], []⟩ 0
    ⟨['u'], []⟩ ['x'] rfl (by decide) (by decide)

end TaskPal
